import Mathlib

/-!
Verification of the fault-tolerance-practice reservation system.

Shallow embedding of the Python services:
  * `src/services/inventory/app.py`    — seat ledger with reserve / release / reset
  * `src/services/gateway/app.py`      — admission gate (bounded semaphore) + proxy
  * `src/services/reservations/app.py` — saga orchestrator with retrying persistence
  * `src/services/payments/app.py`     — payment stub (chaos fail flag)

HTTP request handling becomes pure functions threading explicit state; remote
calls made by the orchestrator and the gateway are modelled by oracle values
describing the outcome of each call (a received response, a timeout, or a
transport error), matching the `requests` exception structure of the source.
-/

/-! ## The inventory ledger (src/services/inventory/app.py)

The Python service keeps a dict `SEATS : event_id → int` and a chaos flag
`CHAOS_FLAGS["crash"]`.  We model the dict as an association list with
first-match lookup and in-place update, which is observationally the
dict semantics, and bundle it with the crash flag into `InvState`. -/

/-- `SEATS.get(event_id, 0)`: lookup with default 0. -/
def lookupD : List (String × Int) → String → Int
  | [], _ => 0
  | (k', v) :: rest, k => if k' = k then v else lookupD rest k

/-- `SEATS[event_id] = v`: update the binding for `k`, adding it if absent. -/
def lset : List (String × Int) → String → Int → List (String × Int)
  | [], k, v => [(k, v)]
  | (k', v') :: rest, k, v =>
      if k' = k then (k, v) :: rest else (k', v') :: lset rest k v

/-- The JSON bodies produced by the services, merged into one record:
every field the handlers ever emit, absent fields being `none`. -/
structure Body where
  status : String
  message : Option String := none
  remaining : Option Int := none
  amount : Option Int := none
  notification : Option (Bool × Option String) := none
deriving Repr, DecidableEq

/-- `_error(message, status)` of the services: error JSON body. -/
def errBody (message : String) : Body :=
  { status := "error", message := some message }

/-- State of the inventory service: the chaos crash flag and the seats dict. -/
structure InvState where
  crash : Bool
  seats : List (String × Int)
deriving Repr, DecidableEq

/-- The initial `SEATS` dict of the inventory service. -/
def SEATS0 : InvState :=
  { crash := false, seats := [("concert-01", 5), ("concert-02", 3)] }

/-- `POST /reserve` of the inventory service: crash-flag check, then atomic
read / compare / decrement; 409 with no mutation when stock is insufficient. -/
def inv_reserve (st : InvState) (event_id : String) (quantity : Int) :
    (Nat × Body) × InvState :=
  if st.crash then
    ((503, errBody "Servicio de Inventario caído (simulado)."), st)
  else
    let available := lookupD st.seats event_id
    if available < quantity then
      ((409, errBody "No hay asientos disponibles."), st)
    else
      let seats' := lset st.seats event_id (available - quantity)
      ((200, { status := "ok", remaining := some (lookupD seats' event_id) }),
       { st with seats := seats' })

/-- `POST /release`: unconditional increment (implicitly creating unknown
event ids at zero); never consults the crash flag. -/
def inv_release (st : InvState) (event_id : String) (quantity : Int) :
    (Nat × Body) × InvState :=
  let seats' := lset st.seats event_id (lookupD st.seats event_id + quantity)
  ((200, { status := "ok", remaining := some (lookupD seats' event_id) }),
   { st with seats := seats' })

/-- `POST /admin/reset`: unconditional overwrite; never consults the crash
flag. -/
def inv_reset (st : InvState) (event_id : String) (seats : Int) :
    (Nat × Body) × InvState :=
  let seats' := lset st.seats event_id seats
  ((200, { status := "ok", remaining := some (lookupD seats' event_id) }),
   { st with seats := seats' })

/-! ## The gateway (src/services/gateway/app.py)

`/api/reserve` tries a non-blocking semaphore acquire; at capacity it answers
429 without touching the downstream.  Otherwise it proxies to the
reservations service inside `try ... finally release()`.  We model the
semaphore by its number of available permits and the downstream call by an
oracle (`requests.post` returning a response, raising `Timeout`, or raising
another `RequestException`), and record in a trace whether a permit was
taken, how many times it was released, and whether the downstream call was
made. -/

/-- `MAX_INFLIGHT` default: `int(os.getenv("MAX_INFLIGHT", "5"))`. -/
def MAX_INFLIGHT : Nat := 5

/-- Outcome of the proxied `requests.post` to the reservations service. -/
inductive Downstream where
  | resp (code : Nat) (body : Body)
  | timeout
  | transportError (exc : String)
deriving Repr, DecidableEq

/-- Execution trace of one gateway request. -/
structure GwTrace where
  acquired : Bool
  releases : Nat
  downstreamCalled : Bool
deriving Repr, DecidableEq

/-- `POST /api/reserve` of the gateway: non-blocking acquire, 429 when
saturated, otherwise proxy with the `finally` release.  Returns the HTTP
result, the semaphore's available permits afterwards, and the trace. -/
def gw_reserve (avail : Nat) (down : Downstream) :
    (Nat × Body) × Nat × GwTrace :=
  if avail = 0 then
    ((429, errBody "API Gateway saturado: demasiadas solicitudes en vuelo."),
     avail, ⟨false, 0, false⟩)
  else
    let availHeld := avail - 1
    let result :=
      match down with
      | .resp code body => (code, body)
      | .timeout =>
          (504, errBody "Tiempo de espera agotado en el Servicio de Reservas.")
      | .transportError exc =>
          (503, errBody
            ("No se pudo contactar al Servicio de Reservas: " ++ exc ++ "."))
    (result, availHeld + 1, ⟨true, 1, true⟩)

/-! ## The orchestrator (src/services/reservations/app.py)

The saga calls the inventory service (modelled by the `inv_reserve` /
`inv_release` functions above, threading `InvState`), the payments service,
the local SQLite store, and the notifications service.  Payment and
notification outcomes are oracle values; the store is a list of records and
each save attempt's outcome (success, or the text of the `sqlite3.Error`
raised) is an oracle function of the attempt number, which also models the
`db_flapping` coin flips. -/

/-- Request payload after `payload.setdefault("quantity", 1)`.  The price is
a JSON number; the claims never compute with it, so an integer model
suffices. -/
structure Payload where
  user_id : String
  event_id : String
  quantity : Int
  price : Int
deriving Repr, DecidableEq

/-- A row of the `reservations` table. -/
structure Record where
  user_id : String
  event_id : String
  quantity : Int
  price : Int
  created_at : String
deriving Repr, DecidableEq

/-- The row inserted for a payload. -/
def mkRecord (p : Payload) (now : String) : Record :=
  ⟨p.user_id, p.event_id, p.quantity, p.price, now⟩

/-- The fixed inter-attempt delay of `save_reservation` (`delay=0.3`),
in seconds. -/
def save_delay : ℚ := 3 / 10

/-- Result of `save_reservation`: the `(ok, last_error)` pair returned to
the orchestrator plus an execution trace (attempts made, number of
`time.sleep(delay)` calls executed). -/
structure SaveResult where
  ok : Bool
  err : Option String
  attempts : Nat
  sleeps : Nat
deriving Repr, DecidableEq

/-- The retry loop of `save_reservation`: `attemptErr n` is the outcome of
the n-th attempt (`none` = the INSERT committed, `some e` = a
`sqlite3.Error` with text `e`, covering both the flapping fault and real
failures).  On success the record is appended to the store and the loop
returns immediately; on failure the error is remembered and the loop sleeps
then retries, up to the remaining fuel. -/
def save_loop (attemptErr : Nat → Option String) (rec : Record)
    (store : List Record) (attempt : Nat) (fuel : Nat)
    (lastError : Option String) (made sleeps : Nat) :
    SaveResult × List Record :=
  match fuel with
  | 0 => (⟨false, lastError, made, sleeps⟩, store)
  | Nat.succ fuel' =>
      match attemptErr attempt with
      | none => (⟨true, none, made + 1, sleeps⟩, store ++ [rec])
      | some e =>
          save_loop attemptErr rec store (attempt + 1) fuel' (some e)
            (made + 1) (sleeps + 1)

/-- `save_reservation(payload, retries=3, delay=0.3)`. -/
def save_reservation (attemptErr : Nat → Option String) (rec : Record)
    (store : List Record) : SaveResult × List Record :=
  save_loop attemptErr rec store 1 3 none 0 0

/-- Outcome of one remote call made with `requests.post`. -/
inductive CallOutcome where
  | resp (code : Nat) (body : Body)
  | timeout
  | transportError (exc : String)
deriving Repr, DecidableEq

/-- `notify_user`: non-2xx responses yield `(False, body message or the
default)`, any `RequestException` (timeouts included) yields
`(False, str(exc))`, a 2xx response yields `(True, None)`. -/
def notify_user : CallOutcome → Bool × Option String
  | .resp code body =>
      if 400 ≤ code then
        (false, some ((body.message).getD "Fallo al notificar"))
      else (true, none)
  | .timeout => (false, some "timeout")
  | .transportError exc => (false, some exc)

/-- `_release_inventory`: best-effort compensation; a transport failure of
the release call is swallowed, leaving the ledger as it was. -/
def release_inventory (reachable : Bool) (inv : InvState) (p : Payload) :
    InvState :=
  if reachable then (inv_release inv p.event_id p.quantity).2 else inv

/-- Environment of one orchestrator request: the outcome of each remote
interaction that is not the inventory state itself. -/
structure Env where
  invCall : Option String
  payment : CallOutcome
  releaseReachable : Bool
  attemptErr : Nat → Option String
  notify : CallOutcome
  now : String

/-- Result of one `POST /reserve` request to the orchestrator: HTTP status,
body, final inventory-service state, final store contents. -/
structure OrchOutput where
  code : Nat
  body : Body
  inv : InvState
  store : List Record
deriving Repr, DecidableEq

/-- `POST /reserve` of the orchestrator: the four saga steps with
fail-fast relay, compensation on payment rejection / timeout / transport
error and on retry exhaustion, and best-effort notification.
`env.invCall = some exc` is a `RequestException` contacting the inventory
service (its state is then untouched); otherwise the inventory handler runs
and its response is inspected. -/
def orch_reserve (env : Env) (inv0 : InvState) (store0 : List Record)
    (p : Payload) : OrchOutput :=
  match env.invCall with
  | some exc =>
      ⟨503, errBody ("Inventario no disponible: " ++ exc ++ "."), inv0, store0⟩
  | none =>
      let r1 := inv_reserve inv0 p.event_id p.quantity
      if 400 ≤ r1.1.1 then
        ⟨r1.1.1, r1.1.2, r1.2, store0⟩
      else
        match env.payment with
        | .resp code body =>
            if 400 ≤ code then
              ⟨code, body,
               release_inventory env.releaseReachable r1.2 p, store0⟩
            else
              let s := save_reservation env.attemptErr (mkRecord p env.now)
                store0
              if s.1.ok then
                ⟨200,
                 { status := "ok", message := some "Reserva confirmada.",
                   notification := some (notify_user env.notify) },
                 r1.2, s.2⟩
              else
                ⟨503,
                 errBody ("No se pudo guardar la reserva: "
                   ++ (s.1.err).getD "None" ++ "."),
                 release_inventory env.releaseReachable r1.2 p, s.2⟩
        | .timeout =>
            ⟨504, errBody "Pago tardó demasiado y fue cancelado.",
             release_inventory env.releaseReachable r1.2 p, store0⟩
        | .transportError exc =>
            ⟨503,
             errBody ("Servicio de pagos no disponible: " ++ exc ++ "."),
             release_inventory env.releaseReachable r1.2 p, store0⟩

/-- `POST /pay` of the payments service (src/services/payments/app.py),
ignoring the latency flag (latency only delays, it never changes the
response): with the fail flag on every payment is rejected with 502. -/
def payments_pay (failFlag : Bool) (p : Payload) : Nat × Body :=
  if failFlag then
    (502, errBody "Pago rechazado por el proveedor (simulado).")
  else
    (200, { status := "ok", message := some "Pago aprobado.",
            amount := some (p.price * p.quantity) })


/-! ## Lemmas -/

/-! ### Association-list lemmas -/

theorem lookupD_lset_self (l : List (String × Int)) (k : String) (v : Int) :
    lookupD (lset l k v) k = v := by
  induction l with
  | nil => simp [lset, lookupD]
  | cons hd tl ih =>
      by_cases h : hd.1 = k
      · simp [lset, lookupD, h]
      · simp only [lset, lookupD]
        rw [if_neg h, lookupD, if_neg h]
        exact ih

theorem lookupD_lset_ne (l : List (String × Int)) (k k' : String) (v : Int)
    (h : k' ≠ k) : lookupD (lset l k v) k' = lookupD l k' := by
  have hkk : k ≠ k' := fun hh => h hh.symm
  induction l with
  | nil => simp [lset, lookupD, hkk]
  | cons hd tl ih =>
      by_cases hk : hd.1 = k
      · have h1 : hd.1 ≠ k' := by rw [hk]; exact hkk
        simp only [lset, if_pos hk, lookupD, if_neg hkk, if_neg h1]
      · simp only [lset, if_neg hk, lookupD]
        by_cases hk' : hd.1 = k'
        · rw [if_pos hk', if_pos hk']
        · rw [if_neg hk', if_neg hk']
          exact ih

theorem mem_lset (l : List (String × Int)) (k : String) (v : Int)
    (p : String × Int) (hp : p ∈ lset l k v) : p = (k, v) ∨ p ∈ l := by
  induction l with
  | nil => simpa [lset] using hp
  | cons hd tl ih =>
      by_cases hk : hd.1 = k
      · simp only [lset, if_pos hk, List.mem_cons] at hp
        rcases hp with h | h
        · exact Or.inl h
        · exact Or.inr (List.mem_cons_of_mem _ h)
      · simp only [lset, if_neg hk, List.mem_cons] at hp
        rcases hp with h | h
        · exact Or.inr (h ▸ List.mem_cons_self _ _)
        · rcases ih h with h' | h'
          · exact Or.inl h'
          · exact Or.inr (List.mem_cons_of_mem _ h')

theorem lookupD_nonneg (l : List (String × Int))
    (h : ∀ p ∈ l, 0 ≤ p.2) (k : String) : 0 ≤ lookupD l k := by
  induction l with
  | nil => simp [lookupD]
  | cons hd tl ih =>
      simp only [lookupD]
      by_cases hk : hd.1 = k
      · rw [if_pos hk]; exact h hd (List.mem_cons_self _ _)
      · rw [if_neg hk]
        exact ih fun p hp => h p (List.mem_cons_of_mem _ hp)

/-! ### Reduction lemmas -/

/-- A reserve with sufficient stock and crash flag off: explicit result. -/
theorem inv_reserve_success (st : InvState) (e : String) (q : Int)
    (hc : st.crash = false) (h : ¬ lookupD st.seats e < q) :
    inv_reserve st e q =
      ((200, { status := "ok", remaining := some (lookupD st.seats e - q) }),
       { st with seats := lset st.seats e (lookupD st.seats e - q) }) := by
  simp only [inv_reserve, hc, Bool.false_eq_true, if_false, if_neg h,
    lookupD_lset_self]

/-- Seat count after a release, for every key. -/
theorem inv_release_lookupD (st : InvState) (e : String) (q : Int)
    (k : String) :
    lookupD (inv_release st e q).2.seats k =
      if k = e then lookupD st.seats e + q else lookupD st.seats k := by
  by_cases hk : k = e
  · subst hk
    simp [inv_release, lookupD_lset_self]
  · simp [inv_release, hk, lookupD_lset_ne _ _ _ _ hk]

/-- Closed form of the three-attempt retry loop of `save_reservation`. -/
theorem save_reservation_eq (g : Nat → Option String) (rec : Record)
    (store : List Record) :
    save_reservation g rec store =
      match g 1 with
      | none => (⟨true, none, 1, 0⟩, store ++ [rec])
      | some _ =>
        match g 2 with
        | none => (⟨true, none, 2, 1⟩, store ++ [rec])
        | some _ =>
          match g 3 with
          | none => (⟨true, none, 3, 2⟩, store ++ [rec])
          | some e3 => (⟨false, some e3, 3, 3⟩, store) := by
  cases h1 : g 1 <;> cases h2 : g 2 <;> cases h3 : g 3 <;>
    simp [save_reservation, save_loop, h1, h2, h3]

/-- A successful save appends exactly the one record. -/
theorem save_ok_store (g : Nat → Option String) (rec : Record)
    (store : List Record) (h : (save_reservation g rec store).1.ok = true) :
    (save_reservation g rec store).2 = store ++ [rec] := by
  rw [save_reservation_eq] at h ⊢
  cases h1 : g 1 <;> cases h2 : g 2 <;> cases h3 : g 3 <;>
    simp [h1, h2, h3] at h ⊢

/-! ## Claims about the inventory service -/

/-- Claim C1: for every ledger state and reserve request (crash flag off),
if the available seats for the event (0 when unknown) are less than the
requested quantity, reserve fails with 409 and leaves the service state
unchanged; otherwise it decrements that event's seats by exactly the
quantity, leaves every other event untouched, and returns status ok with
`remaining` equal to the decremented value. -/
theorem C1_inventory_reserve (st : InvState) (e : String) (q : Int)
    (hc : st.crash = false) :
    (lookupD st.seats e < q →
      (inv_reserve st e q).1.1 = 409 ∧
      (inv_reserve st e q).1.2.status = "error" ∧
      (inv_reserve st e q).2 = st) ∧
    (¬ lookupD st.seats e < q →
      (inv_reserve st e q).1.1 = 200 ∧
      (inv_reserve st e q).1.2.status = "ok" ∧
      (inv_reserve st e q).1.2.remaining = some (lookupD st.seats e - q) ∧
      lookupD (inv_reserve st e q).2.seats e = lookupD st.seats e - q ∧
      (∀ k, k ≠ e → lookupD (inv_reserve st e q).2.seats k = lookupD st.seats k)) := by
  constructor
  · intro h
    simp [inv_reserve, errBody, hc, h]
  · intro h
    refine ⟨?_, ?_, ?_, ?_, ?_⟩
    · simp [inv_reserve, hc, h]
    · simp [inv_reserve, hc, h]
    · simp [inv_reserve, hc, h, lookupD_lset_self]
    · simp [inv_reserve, hc, h, lookupD_lset_self]
    · intro k hk
      simp [inv_reserve, hc, h, lookupD_lset_ne _ _ _ _ hk]

theorem C1_inventory_reserve_witness :
    SEATS0.crash = false ∧
    ((lookupD SEATS0.seats "concert-02" < 4 →
      (inv_reserve SEATS0 "concert-02" 4).1.1 = 409 ∧
      (inv_reserve SEATS0 "concert-02" 4).1.2.status = "error" ∧
      (inv_reserve SEATS0 "concert-02" 4).2 = SEATS0) ∧
    (¬ lookupD SEATS0.seats "concert-02" < 4 →
      (inv_reserve SEATS0 "concert-02" 4).1.1 = 200 ∧
      (inv_reserve SEATS0 "concert-02" 4).1.2.status = "ok" ∧
      (inv_reserve SEATS0 "concert-02" 4).1.2.remaining =
        some (lookupD SEATS0.seats "concert-02" - 4) ∧
      lookupD (inv_reserve SEATS0 "concert-02" 4).2.seats "concert-02" =
        lookupD SEATS0.seats "concert-02" - 4 ∧
      (∀ k, k ≠ "concert-02" →
        lookupD (inv_reserve SEATS0 "concert-02" 4).2.seats k =
          lookupD SEATS0.seats k))) :=
  ⟨rfl, C1_inventory_reserve SEATS0 "concert-02" 4 rfl⟩

/-- Claim C9: release succeeds unconditionally, sets the event's seats to
(previous value, 0 for an unknown id) + quantity, leaves other events
untouched, and returns the new value as `remaining`. -/
theorem C9_inventory_release (st : InvState) (e : String) (q : Int) :
    (inv_release st e q).1.1 = 200 ∧
    (inv_release st e q).1.2.status = "ok" ∧
    (inv_release st e q).1.2.remaining = some (lookupD st.seats e + q) ∧
    lookupD (inv_release st e q).2.seats e = lookupD st.seats e + q ∧
    ∀ k, k ≠ e → lookupD (inv_release st e q).2.seats k = lookupD st.seats k := by
  refine ⟨rfl, rfl, ?_, ?_, ?_⟩
  · simp [inv_release, lookupD_lset_self]
  · simp [inv_release, lookupD_lset_self]
  · intro k hk
    exact lookupD_lset_ne _ _ _ _ hk

/-- Claim C10: the crash flag gates only reserve: with the flag on, reserve
answers 503 leaving the state unchanged, while release and reset respond and
mutate the seats dict exactly as they would with the flag off. -/
theorem C10_crash_gates_only_reserve
    (seats : List (String × Int)) (e : String) (q s : Int) :
    (inv_reserve ⟨true, seats⟩ e q =
      ((503, errBody "Servicio de Inventario caído (simulado)."),
       ⟨true, seats⟩)) ∧
    ((inv_release ⟨true, seats⟩ e q).1 = (inv_release ⟨false, seats⟩ e q).1 ∧
     (inv_release ⟨true, seats⟩ e q).2.seats =
       (inv_release ⟨false, seats⟩ e q).2.seats ∧
     (inv_release ⟨true, seats⟩ e q).2.seats =
       lset seats e (lookupD seats e + q)) ∧
    ((inv_reset ⟨true, seats⟩ e s).1 = (inv_reset ⟨false, seats⟩ e s).1 ∧
     (inv_reset ⟨true, seats⟩ e s).2.seats =
       (inv_reset ⟨false, seats⟩ e s).2.seats ∧
     (inv_reset ⟨true, seats⟩ e s).2.seats = lset seats e s) := by
  exact ⟨rfl, ⟨rfl, rfl, rfl⟩, ⟨rfl, rfl, rfl⟩⟩

/-- Claim C2 as stated fails: the endpoints accept arbitrary integers
(`int(payload.get(...))` with no sign check), and a release with a negative
quantity drives a nonnegative ledger below zero: from the initial ledger
(all counts ≥ 0), `release("concert-01", -6)` leaves -1 seats. -/
theorem C2_counterexample :
    (∀ p ∈ SEATS0.seats, 0 ≤ p.2) ∧
    lookupD (inv_release SEATS0 "concert-01" (-6)).2.seats "concert-01" < 0 := by
  decide

/-- Claim C2 amended: starting from a ledger whose counts are all ≥ 0,
reserve preserves nonnegativity for every integer quantity, and release and
reset preserve it provided the supplied quantity (resp. seats) is ≥ 0; with
negative arguments release and reset can produce a negative count. -/
theorem C2_amended_nonneg (st : InvState) (h : ∀ p ∈ st.seats, 0 ≤ p.2) :
    (∀ e q, ∀ p ∈ (inv_reserve st e q).2.seats, 0 ≤ p.2) ∧
    (∀ e q, 0 ≤ q → ∀ p ∈ (inv_release st e q).2.seats, 0 ≤ p.2) ∧
    (∀ e s, 0 ≤ s → ∀ p ∈ (inv_reset st e s).2.seats, 0 ≤ p.2) := by
  refine ⟨?_, ?_, ?_⟩
  · intro e q p hp
    by_cases hc : st.crash
    · simp only [inv_reserve, if_pos hc] at hp
      exact h p hp
    · by_cases hlt : lookupD st.seats e < q
      · simp only [inv_reserve, if_neg hc, if_pos hlt] at hp
        exact h p hp
      · simp only [inv_reserve, if_neg hc, if_neg hlt] at hp
        rcases mem_lset _ _ _ _ hp with rfl | hmem
        · exact sub_nonneg.mpr (le_of_not_lt hlt)
        · exact h p hmem
  · intro e q hq p hp
    simp only [inv_release] at hp
    rcases mem_lset _ _ _ _ hp with rfl | hmem
    · exact add_nonneg (lookupD_nonneg _ h e) hq
    · exact h p hmem
  · intro e s hs p hp
    simp only [inv_reset] at hp
    rcases mem_lset _ _ _ _ hp with rfl | hmem
    · exact hs
    · exact h p hmem

theorem C2_amended_nonneg_witness :
    (∀ p ∈ SEATS0.seats, 0 ≤ p.2) ∧
    ((∀ e q, ∀ p ∈ (inv_reserve SEATS0 e q).2.seats, 0 ≤ p.2) ∧
     (∀ e q, 0 ≤ q → ∀ p ∈ (inv_release SEATS0 e q).2.seats, 0 ≤ p.2) ∧
     (∀ e s, 0 ≤ s → ∀ p ∈ (inv_reset SEATS0 e s).2.seats, 0 ≤ p.2)) :=
  ⟨by decide, C2_amended_nonneg SEATS0 (by decide)⟩

/-! ## Claims about the gateway -/

/-- Claim C4: whenever a request is admitted (a permit was available and
taken), the permit is released exactly once on every exit path — proxied
response, downstream timeout, and downstream transport error — so the
semaphore's available capacity after the handler equals its capacity
before the request entered. -/
theorem C4_slot_released_every_path (avail : Nat) (down : Downstream)
    (h : avail ≠ 0) :
    (gw_reserve avail down).2.2.acquired = true ∧
    (gw_reserve avail down).2.2.releases = 1 ∧
    (gw_reserve avail down).2.1 = avail := by
  refine ⟨?_, ?_, ?_⟩
  · simp [gw_reserve, h]
  · simp [gw_reserve, h]
  · simp only [gw_reserve, if_neg h]
    omega

theorem C4_slot_released_every_path_witness :
    (3 : Nat) ≠ 0 ∧
    ((gw_reserve 3 Downstream.timeout).2.2.acquired = true ∧
     (gw_reserve 3 Downstream.timeout).2.2.releases = 1 ∧
     (gw_reserve 3 Downstream.timeout).2.1 = 3) :=
  ⟨by decide, C4_slot_released_every_path 3 Downstream.timeout (by decide)⟩

/-- Claim C8: at capacity (no permit available) the gateway answers 429
with an error body, makes no downstream call, takes no permit, and leaves
the capacity counter unchanged — for every downstream oracle, since the
downstream is never consulted. -/
theorem C8_saturated_rejects_immediately (avail : Nat) (down : Downstream)
    (h : avail = 0) :
    (gw_reserve avail down).1.1 = 429 ∧
    (gw_reserve avail down).1.2.status = "error" ∧
    (gw_reserve avail down).2.2.downstreamCalled = false ∧
    (gw_reserve avail down).2.2.acquired = false ∧
    (gw_reserve avail down).2.1 = avail := by
  subst h
  refine ⟨rfl, rfl, rfl, rfl, rfl⟩

theorem C8_saturated_rejects_immediately_witness :
    (0 : Nat) = 0 ∧
    ((gw_reserve 0 (Downstream.resp 200 (errBody "x"))).1.1 = 429 ∧
     (gw_reserve 0 (Downstream.resp 200 (errBody "x"))).1.2.status = "error" ∧
     (gw_reserve 0 (Downstream.resp 200 (errBody "x"))).2.2.downstreamCalled
       = false ∧
     (gw_reserve 0 (Downstream.resp 200 (errBody "x"))).2.2.acquired = false ∧
     (gw_reserve 0 (Downstream.resp 200 (errBody "x"))).2.1 = 0) :=
  ⟨rfl, C8_saturated_rejects_immediately 0 (Downstream.resp 200 (errBody "x")) rfl⟩

/-! ## Claims about the orchestrator -/

/-- Claim C3: when the inventory reserve step succeeds and the payment step
returns a non-2xx response (and the compensating release call reaches the
inventory service), the orchestrator releases the reserved quantity so that
every event's available count — in particular the reserved one — is back at
its pre-call value, no record is stored, and the orchestrator's response
carries the payment failure's status code and body. -/
theorem C3_payment_rejection_compensates (env : Env) (inv0 : InvState)
    (store0 : List Record) (p : Payload) (c : Nat) (b : Body)
    (hinv : env.invCall = none) (hc : inv0.crash = false)
    (hstock : ¬ lookupD inv0.seats p.event_id < p.quantity)
    (hpay : env.payment = CallOutcome.resp c b) (hcode : 400 ≤ c)
    (hrel : env.releaseReachable = true) :
    (orch_reserve env inv0 store0 p).code = c ∧
    (orch_reserve env inv0 store0 p).body = b ∧
    (∀ k, lookupD (orch_reserve env inv0 store0 p).inv.seats k =
      lookupD inv0.seats k) ∧
    (orch_reserve env inv0 store0 p).store = store0 := by
  have hr := inv_reserve_success inv0 p.event_id p.quantity hc hstock
  have h200 : ¬ (400 ≤ 200) := by norm_num
  refine ⟨?_, ?_, ?_, ?_⟩
  · simp [orch_reserve, hinv, hr, hpay, if_neg h200, if_pos hcode]
  · simp [orch_reserve, hinv, hr, hpay, if_neg h200, if_pos hcode]
  · intro k
    simp only [orch_reserve, hinv, hr, hpay, if_neg h200, if_pos hcode, hrel,
      release_inventory, if_true]
    rw [inv_release_lookupD]
    by_cases hk : k = p.event_id
    · subst hk
      rw [if_pos rfl, lookupD_lset_self]
      ring
    · rw [if_neg hk, lookupD_lset_ne _ _ _ _ hk]
  · simp [orch_reserve, hinv, hr, hpay, if_neg h200, if_pos hcode]

theorem C3_payment_rejection_compensates_witness :
    ({ invCall := none, payment := CallOutcome.resp 502 (errBody "Pago rechazado por el proveedor (simulado)."),
       releaseReachable := true, attemptErr := fun _ => none,
       notify := CallOutcome.resp 200 { status := "ok" }, now := "t0" : Env}.invCall
        = none ∧
     SEATS0.crash = false ∧
     ¬ lookupD SEATS0.seats "concert-01" < 2 ∧
     ({ invCall := none, payment := CallOutcome.resp 502 (errBody "Pago rechazado por el proveedor (simulado)."),
        releaseReachable := true, attemptErr := fun _ => none,
        notify := CallOutcome.resp 200 { status := "ok" }, now := "t0" : Env}.payment
        = CallOutcome.resp 502 (errBody "Pago rechazado por el proveedor (simulado).")) ∧
     (400 ≤ 502) ∧
     ({ invCall := none, payment := CallOutcome.resp 502 (errBody "Pago rechazado por el proveedor (simulado)."),
        releaseReachable := true, attemptErr := fun _ => none,
        notify := CallOutcome.resp 200 { status := "ok" }, now := "t0" : Env}.releaseReachable
        = true)) ∧
    ((orch_reserve
        { invCall := none, payment := CallOutcome.resp 502 (errBody "Pago rechazado por el proveedor (simulado)."),
          releaseReachable := true, attemptErr := fun _ => none,
          notify := CallOutcome.resp 200 { status := "ok" }, now := "t0" }
        SEATS0 [] ⟨"u1", "concert-01", 2, 10⟩).code = 502 ∧
     (orch_reserve
        { invCall := none, payment := CallOutcome.resp 502 (errBody "Pago rechazado por el proveedor (simulado)."),
          releaseReachable := true, attemptErr := fun _ => none,
          notify := CallOutcome.resp 200 { status := "ok" }, now := "t0" }
        SEATS0 [] ⟨"u1", "concert-01", 2, 10⟩).body
        = errBody "Pago rechazado por el proveedor (simulado)." ∧
     (∀ k, lookupD (orch_reserve
        { invCall := none, payment := CallOutcome.resp 502 (errBody "Pago rechazado por el proveedor (simulado)."),
          releaseReachable := true, attemptErr := fun _ => none,
          notify := CallOutcome.resp 200 { status := "ok" }, now := "t0" }
        SEATS0 [] ⟨"u1", "concert-01", 2, 10⟩).inv.seats k
        = lookupD SEATS0.seats k) ∧
     (orch_reserve
        { invCall := none, payment := CallOutcome.resp 502 (errBody "Pago rechazado por el proveedor (simulado)."),
          releaseReachable := true, attemptErr := fun _ => none,
          notify := CallOutcome.resp 200 { status := "ok" }, now := "t0" }
        SEATS0 [] ⟨"u1", "concert-01", 2, 10⟩).store = []) :=
  ⟨⟨rfl, rfl, by decide, rfl, by norm_num, rfl⟩,
   C3_payment_rejection_compensates _ SEATS0 [] ⟨"u1", "concert-01", 2, 10⟩
     502 (errBody "Pago rechazado por el proveedor (simulado).")
     rfl rfl (by decide) rfl (by norm_num) rfl⟩

/-- Claim C5: when the payment call times out after a successful inventory
reserve (and the release call reaches the inventory service), the
orchestrator compensates — every seat count is restored — and answers 504;
when payment instead explicitly rejects (the payments service with the fail
flag answers 502), the orchestrator relays 502; the two status codes are
distinct, so a caller can tell the ambiguous timeout from a known
rejection. -/
theorem C5_timeout_distinct_from_rejection (env : Env) (inv0 : InvState)
    (store0 : List Record) (p : Payload)
    (hinv : env.invCall = none) (hc : inv0.crash = false)
    (hstock : ¬ lookupD inv0.seats p.event_id < p.quantity)
    (hpay : env.payment = CallOutcome.timeout)
    (hrel : env.releaseReachable = true) :
    (orch_reserve env inv0 store0 p).code = 504 ∧
    (orch_reserve env inv0 store0 p).body.status = "error" ∧
    (∀ k, lookupD (orch_reserve env inv0 store0 p).inv.seats k =
      lookupD inv0.seats k) ∧
    (payments_pay true p).1 = 502 ∧
    (orch_reserve
        { env with payment := CallOutcome.resp (payments_pay true p).1 (payments_pay true p).2 }
        inv0 store0 p).code = 502 ∧
    (504 : Nat) ≠ 502 := by
  have hr := inv_reserve_success inv0 p.event_id p.quantity hc hstock
  have h200 : ¬ (400 ≤ 200) := by norm_num
  refine ⟨?_, ?_, ?_, rfl, ?_, by norm_num⟩
  · simp [orch_reserve, hinv, hr, hpay]
  · simp [orch_reserve, hinv, hr, hpay, errBody]
  · intro k
    simp only [orch_reserve, hinv, hr, hpay, if_neg h200, hrel,
      release_inventory, if_true]
    rw [inv_release_lookupD]
    by_cases hk : k = p.event_id
    · subst hk
      rw [if_pos rfl, lookupD_lset_self]
      ring
    · rw [if_neg hk, lookupD_lset_ne _ _ _ _ hk]
  · have h502 : (400 : Nat) ≤ 502 := by norm_num
    simp [orch_reserve, hinv, hr, payments_pay, if_pos h502]

theorem C5_timeout_distinct_from_rejection_witness :
    ({ invCall := none, payment := CallOutcome.timeout,
       releaseReachable := true, attemptErr := fun _ => none,
       notify := CallOutcome.resp 200 { status := "ok" }, now := "t0" : Env}.invCall
        = none ∧
     SEATS0.crash = false ∧
     ¬ lookupD SEATS0.seats "concert-02" < 1 ∧
     ({ invCall := none, payment := CallOutcome.timeout,
        releaseReachable := true, attemptErr := fun _ => none,
        notify := CallOutcome.resp 200 { status := "ok" }, now := "t0" : Env}.payment
        = CallOutcome.timeout) ∧
     ({ invCall := none, payment := CallOutcome.timeout,
        releaseReachable := true, attemptErr := fun _ => none,
        notify := CallOutcome.resp 200 { status := "ok" }, now := "t0" : Env}.releaseReachable
        = true)) ∧
    ((orch_reserve
        { invCall := none, payment := CallOutcome.timeout,
          releaseReachable := true, attemptErr := fun _ => none,
          notify := CallOutcome.resp 200 { status := "ok" }, now := "t0" }
        SEATS0 [] ⟨"u2", "concert-02", 1, 25⟩).code = 504 ∧
     (orch_reserve
        { invCall := none, payment := CallOutcome.timeout,
          releaseReachable := true, attemptErr := fun _ => none,
          notify := CallOutcome.resp 200 { status := "ok" }, now := "t0" }
        SEATS0 [] ⟨"u2", "concert-02", 1, 25⟩).body.status = "error" ∧
     (∀ k, lookupD (orch_reserve
        { invCall := none, payment := CallOutcome.timeout,
          releaseReachable := true, attemptErr := fun _ => none,
          notify := CallOutcome.resp 200 { status := "ok" }, now := "t0" }
        SEATS0 [] ⟨"u2", "concert-02", 1, 25⟩).inv.seats k
        = lookupD SEATS0.seats k) ∧
     (payments_pay true ⟨"u2", "concert-02", 1, 25⟩).1 = 502 ∧
     (orch_reserve
        { invCall := none,
          payment := CallOutcome.resp 502 (errBody "Pago rechazado por el proveedor (simulado)."),
          releaseReachable := true, attemptErr := fun _ => none,
          notify := CallOutcome.resp 200 { status := "ok" }, now := "t0" }
        SEATS0 [] ⟨"u2", "concert-02", 1, 25⟩).code = 502 ∧
     (504 : Nat) ≠ 502) :=
  ⟨⟨rfl, rfl, by decide, rfl, rfl⟩,
   C5_timeout_distinct_from_rejection _ SEATS0 [] ⟨"u2", "concert-02", 1, 25⟩
     rfl rfl (by decide) rfl rfl⟩

/-- Claim C6: `save_reservation` makes at most 3 attempts, sleeping the
fixed `save_delay` = 0.3 s after each failed attempt; it returns
`(True, None)` as soon as an attempt succeeds, making no further attempts,
and when all 3 attempts fail it returns `(False, last_error)` with the
error of the final attempt and appends nothing.  The orchestrator then
treats this as terminal: it releases the reserved inventory (every seat
count restored), persists no record, and responds 503. -/
theorem C6_bounded_retry_terminal (env : Env) (inv0 : InvState)
    (store0 : List Record) (p : Payload) (c : Nat) (bd : Body)
    (e1 e2 e3 : String)
    (hinv : env.invCall = none) (hc : inv0.crash = false)
    (hstock : ¬ lookupD inv0.seats p.event_id < p.quantity)
    (hpay : env.payment = CallOutcome.resp c bd) (hcode : ¬ 400 ≤ c)
    (hrel : env.releaseReachable = true)
    (h1 : env.attemptErr 1 = some e1) (h2 : env.attemptErr 2 = some e2)
    (h3 : env.attemptErr 3 = some e3) :
    (∀ g rec store, (save_reservation g rec store).1.attempts ≤ 3) ∧
    (∀ g rec store, g 1 = none →
      save_reservation g rec store = (⟨true, none, 1, 0⟩, store ++ [rec])) ∧
    (∀ g rec store a1, g 1 = some a1 → g 2 = none →
      save_reservation g rec store = (⟨true, none, 2, 1⟩, store ++ [rec])) ∧
    (∀ g rec store a1 a2, g 1 = some a1 → g 2 = some a2 → g 3 = none →
      save_reservation g rec store = (⟨true, none, 3, 2⟩, store ++ [rec])) ∧
    (∀ g rec store a1 a2 a3, g 1 = some a1 → g 2 = some a2 → g 3 = some a3 →
      save_reservation g rec store = (⟨false, some a3, 3, 3⟩, store)) ∧
    save_delay = 3 / 10 ∧
    (orch_reserve env inv0 store0 p).code = 503 ∧
    (orch_reserve env inv0 store0 p).body.status = "error" ∧
    (∀ k, lookupD (orch_reserve env inv0 store0 p).inv.seats k =
      lookupD inv0.seats k) ∧
    (orch_reserve env inv0 store0 p).store = store0 := by
  have hr := inv_reserve_success inv0 p.event_id p.quantity hc hstock
  have h200 : ¬ (400 ≤ 200) := by norm_num
  have hs : save_reservation env.attemptErr (mkRecord p env.now) store0 =
      (⟨false, some e3, 3, 3⟩, store0) := by
    rw [save_reservation_eq]
    simp [h1, h2, h3]
  refine ⟨?_, ?_, ?_, ?_, ?_, rfl, ?_, ?_, ?_, ?_⟩
  · intro g rec store
    rw [save_reservation_eq]
    cases g 1 <;> cases g 2 <;> cases g 3 <;> simp
  · intro g rec store hg1
    rw [save_reservation_eq, hg1]
  · intro g rec store a1 hg1 hg2
    rw [save_reservation_eq, hg1, hg2]
  · intro g rec store a1 a2 hg1 hg2 hg3
    rw [save_reservation_eq, hg1, hg2, hg3]
  · intro g rec store a1 a2 a3 hg1 hg2 hg3
    rw [save_reservation_eq, hg1, hg2, hg3]
  · simp [orch_reserve, hinv, hr, hpay, if_neg h200, if_neg hcode, hs]
  · simp [orch_reserve, hinv, hr, hpay, if_neg h200, if_neg hcode, hs, errBody]
  · intro k
    simp only [orch_reserve, hinv, hr, hpay, if_neg h200, if_neg hcode, hs,
      hrel, release_inventory, if_true, Bool.false_eq_true, if_false]
    rw [inv_release_lookupD]
    by_cases hk : k = p.event_id
    · subst hk
      rw [if_pos rfl, lookupD_lset_self]
      ring
    · rw [if_neg hk, lookupD_lset_ne _ _ _ _ hk]
  · simp [orch_reserve, hinv, hr, hpay, if_neg h200, if_neg hcode, hs]

theorem C6_bounded_retry_terminal_witness :
    (({ invCall := none, payment := CallOutcome.resp 200 { status := "ok" },
        releaseReachable := true, attemptErr := fun _ => some "x",
        notify := CallOutcome.resp 200 { status := "ok" }, now := "t0" : Env}.invCall
        = none) ∧
     SEATS0.crash = false ∧
     ¬ lookupD SEATS0.seats "concert-01" < 1 ∧
     ({ invCall := none, payment := CallOutcome.resp 200 { status := "ok" },
        releaseReachable := true, attemptErr := fun _ => some "x",
        notify := CallOutcome.resp 200 { status := "ok" }, now := "t0" : Env}.payment
        = CallOutcome.resp 200 { status := "ok" }) ∧
     ¬ (400 ≤ 200) ∧
     ({ invCall := none, payment := CallOutcome.resp 200 { status := "ok" },
        releaseReachable := true, attemptErr := fun _ => some "x",
        notify := CallOutcome.resp 200 { status := "ok" }, now := "t0" : Env}.releaseReachable
        = true) ∧
     ({ invCall := none, payment := CallOutcome.resp 200 { status := "ok" },
        releaseReachable := true, attemptErr := fun _ => some "x",
        notify := CallOutcome.resp 200 { status := "ok" }, now := "t0" : Env}.attemptErr 1
        = some "x") ∧
     ({ invCall := none, payment := CallOutcome.resp 200 { status := "ok" },
        releaseReachable := true, attemptErr := fun _ => some "x",
        notify := CallOutcome.resp 200 { status := "ok" }, now := "t0" : Env}.attemptErr 2
        = some "x") ∧
     ({ invCall := none, payment := CallOutcome.resp 200 { status := "ok" },
        releaseReachable := true, attemptErr := fun _ => some "x",
        notify := CallOutcome.resp 200 { status := "ok" }, now := "t0" : Env}.attemptErr 3
        = some "x")) ∧
    ((∀ g rec store, (save_reservation g rec store).1.attempts ≤ 3) ∧
     (∀ g rec store, g 1 = none →
       save_reservation g rec store = (⟨true, none, 1, 0⟩, store ++ [rec])) ∧
     (∀ g rec store a1, g 1 = some a1 → g 2 = none →
       save_reservation g rec store = (⟨true, none, 2, 1⟩, store ++ [rec])) ∧
     (∀ g rec store a1 a2, g 1 = some a1 → g 2 = some a2 → g 3 = none →
       save_reservation g rec store = (⟨true, none, 3, 2⟩, store ++ [rec])) ∧
     (∀ g rec store a1 a2 a3, g 1 = some a1 → g 2 = some a2 → g 3 = some a3 →
       save_reservation g rec store = (⟨false, some a3, 3, 3⟩, store)) ∧
     save_delay = 3 / 10 ∧
     (orch_reserve
        { invCall := none, payment := CallOutcome.resp 200 { status := "ok" },
          releaseReachable := true, attemptErr := fun _ => some "x",
          notify := CallOutcome.resp 200 { status := "ok" }, now := "t0" }
        SEATS0 [] ⟨"u3", "concert-01", 1, 10⟩).code = 503 ∧
     (orch_reserve
        { invCall := none, payment := CallOutcome.resp 200 { status := "ok" },
          releaseReachable := true, attemptErr := fun _ => some "x",
          notify := CallOutcome.resp 200 { status := "ok" }, now := "t0" }
        SEATS0 [] ⟨"u3", "concert-01", 1, 10⟩).body.status = "error" ∧
     (∀ k, lookupD (orch_reserve
        { invCall := none, payment := CallOutcome.resp 200 { status := "ok" },
          releaseReachable := true, attemptErr := fun _ => some "x",
          notify := CallOutcome.resp 200 { status := "ok" }, now := "t0" }
        SEATS0 [] ⟨"u3", "concert-01", 1, 10⟩).inv.seats k
        = lookupD SEATS0.seats k) ∧
     (orch_reserve
        { invCall := none, payment := CallOutcome.resp 200 { status := "ok" },
          releaseReachable := true, attemptErr := fun _ => some "x",
          notify := CallOutcome.resp 200 { status := "ok" }, now := "t0" }
        SEATS0 [] ⟨"u3", "concert-01", 1, 10⟩).store = []) :=
  ⟨⟨rfl, rfl, by decide, rfl, by norm_num, rfl, rfl, rfl, rfl⟩,
   C6_bounded_retry_terminal _ SEATS0 [] ⟨"u3", "concert-01", 1, 10⟩
     200 { status := "ok" } "x" "x" "x"
     rfl rfl (by decide) rfl (by norm_num) rfl rfl rfl rfl⟩

/-- Claim C7: once inventory reserve, payment and persistence have
succeeded, the notification outcome never changes the result: for every
notification outcome the orchestrator answers 200 with status ok, the
ledger keeps exactly the reserved decrement (no compensation) and the store
keeps exactly the saved record — both independent of the outcome — and a
failed notification (non-2xx or transport error) is reported only as
`sent = false` with the error in the details sub-field. -/
theorem C7_notification_independence (env : Env) (inv0 : InvState)
    (store0 : List Record) (p : Payload) (c : Nat) (bd : Body)
    (hinv : env.invCall = none) (hc : inv0.crash = false)
    (hstock : ¬ lookupD inv0.seats p.event_id < p.quantity)
    (hpay : env.payment = CallOutcome.resp c bd) (hcode : ¬ 400 ≤ c)
    (hsave : (save_reservation env.attemptErr (mkRecord p env.now) store0).1.ok
      = true) :
    (∀ n,
      (orch_reserve { env with notify := n } inv0 store0 p).code = 200 ∧
      (orch_reserve { env with notify := n } inv0 store0 p).body.status
        = "ok" ∧
      (orch_reserve { env with notify := n } inv0 store0 p).body.notification
        = some (notify_user n) ∧
      (orch_reserve { env with notify := n } inv0 store0 p).inv.seats
        = lset inv0.seats p.event_id
            (lookupD inv0.seats p.event_id - p.quantity) ∧
      (orch_reserve { env with notify := n } inv0 store0 p).store
        = store0 ++ [mkRecord p env.now]) ∧
    (∀ cn m, 400 ≤ cn →
      notify_user (CallOutcome.resp cn m)
        = (false, some ((m.message).getD "Fallo al notificar"))) ∧
    (∀ exc, notify_user (CallOutcome.transportError exc)
      = (false, some exc)) := by
  have hr := inv_reserve_success inv0 p.event_id p.quantity hc hstock
  have h200 : ¬ (400 ≤ 200) := by norm_num
  have hstore := save_ok_store env.attemptErr (mkRecord p env.now) store0 hsave
  refine ⟨?_, ?_, ?_⟩
  · intro n
    refine ⟨?_, ?_, ?_, ?_, ?_⟩ <;>
      simp [orch_reserve, hinv, hr, hpay, if_neg h200, if_neg hcode, hsave,
        hstore]
  · intro cn m hcn
    simp [notify_user, if_pos hcn]
  · intro exc
    rfl

theorem C7_notification_independence_witness :
    (({ invCall := none, payment := CallOutcome.resp 200 { status := "ok" },
        releaseReachable := true, attemptErr := fun _ => none,
        notify := CallOutcome.resp 503 (errBody "down"), now := "t0" : Env}.invCall
        = none) ∧
     SEATS0.crash = false ∧
     ¬ lookupD SEATS0.seats "concert-02" < 2 ∧
     ({ invCall := none, payment := CallOutcome.resp 200 { status := "ok" },
        releaseReachable := true, attemptErr := fun _ => none,
        notify := CallOutcome.resp 503 (errBody "down"), now := "t0" : Env}.payment
        = CallOutcome.resp 200 { status := "ok" }) ∧
     ¬ (400 ≤ 200) ∧
     ((save_reservation
        ({ invCall := none, payment := CallOutcome.resp 200 { status := "ok" },
           releaseReachable := true, attemptErr := fun _ => none,
           notify := CallOutcome.resp 503 (errBody "down"), now := "t0" : Env}.attemptErr)
        (mkRecord ⟨"u4", "concert-02", 2, 15⟩
          ({ invCall := none, payment := CallOutcome.resp 200 { status := "ok" },
             releaseReachable := true, attemptErr := fun _ => none,
             notify := CallOutcome.resp 503 (errBody "down"), now := "t0" : Env}.now))
        []).1.ok = true)) ∧
    ((∀ n,
      (orch_reserve
        { ({ invCall := none, payment := CallOutcome.resp 200 { status := "ok" },
             releaseReachable := true, attemptErr := fun _ => none,
             notify := CallOutcome.resp 503 (errBody "down"), now := "t0" : Env})
          with notify := n }
        SEATS0 [] ⟨"u4", "concert-02", 2, 15⟩).code = 200 ∧
      (orch_reserve
        { ({ invCall := none, payment := CallOutcome.resp 200 { status := "ok" },
             releaseReachable := true, attemptErr := fun _ => none,
             notify := CallOutcome.resp 503 (errBody "down"), now := "t0" : Env})
          with notify := n }
        SEATS0 [] ⟨"u4", "concert-02", 2, 15⟩).body.status = "ok" ∧
      (orch_reserve
        { ({ invCall := none, payment := CallOutcome.resp 200 { status := "ok" },
             releaseReachable := true, attemptErr := fun _ => none,
             notify := CallOutcome.resp 503 (errBody "down"), now := "t0" : Env})
          with notify := n }
        SEATS0 [] ⟨"u4", "concert-02", 2, 15⟩).body.notification
        = some (notify_user n) ∧
      (orch_reserve
        { ({ invCall := none, payment := CallOutcome.resp 200 { status := "ok" },
             releaseReachable := true, attemptErr := fun _ => none,
             notify := CallOutcome.resp 503 (errBody "down"), now := "t0" : Env})
          with notify := n }
        SEATS0 [] ⟨"u4", "concert-02", 2, 15⟩).inv.seats
        = lset SEATS0.seats "concert-02" (lookupD SEATS0.seats "concert-02" - 2) ∧
      (orch_reserve
        { ({ invCall := none, payment := CallOutcome.resp 200 { status := "ok" },
             releaseReachable := true, attemptErr := fun _ => none,
             notify := CallOutcome.resp 503 (errBody "down"), now := "t0" : Env})
          with notify := n }
        SEATS0 [] ⟨"u4", "concert-02", 2, 15⟩).store
        = [] ++ [mkRecord ⟨"u4", "concert-02", 2, 15⟩ "t0"]) ∧
     (∀ cn m, 400 ≤ cn →
       notify_user (CallOutcome.resp cn m)
         = (false, some ((m.message).getD "Fallo al notificar"))) ∧
     (∀ exc, notify_user (CallOutcome.transportError exc)
       = (false, some exc))) :=
  ⟨⟨rfl, rfl, by decide, rfl, by norm_num, rfl⟩,
   C7_notification_independence _ SEATS0 [] ⟨"u4", "concert-02", 2, 15⟩
     200 { status := "ok" } rfl rfl (by decide) rfl (by norm_num) rfl⟩
